import Mathlib

/-!
Verification of the weather_advisor suitability-scoring and training pipeline.

The definitions below are a shallow embedding of `weather_predictor.py`
(class `WeatherPredictor`).  Python floats are modelled as exact rationals
(`ℚ`); decimal literals are translated exactly.  Network fetches, the
sklearn classifier fit and the float-valued feature derivation
(`prepare_training_data`) are external effects and are passed in as explicit
arguments where the control flow under verification needs them.
-/

/-- An activity profile: entry of `WeatherPredictor.activity_profiles`
(`ideal_temp` is the pair `(ideal_min, ideal_max)`). -/
structure ActivityProfile where
  ideal_min : ℚ
  ideal_max : ℚ
  max_wind : ℚ
  max_rain : ℚ
  name : String
  deriving DecidableEq

/-- The per-day aggregate `weather` dict built in `predict` (lines 510-518):
mean temperature, max of per-sample maxima, min of per-sample minima, mean
wind, max gust, mean humidity, summed precipitation. -/
structure WeatherData where
  temp : ℚ
  temp_max : ℚ
  temp_min : ℚ
  wind_speed : ℚ
  wind_max : ℚ
  humidity : ℚ
  precipitation : ℚ
  deriving DecidableEq

/-- Temperature sub-score of `calculate_suitability_score` (lines 332-340). -/
def temp_component (p : ActivityProfile) (t : ℚ) : ℚ :=
  if p.ideal_min ≤ t ∧ t ≤ p.ideal_max then 100
  else if t < p.ideal_min then max 0 (100 - (p.ideal_min - t) * 5)
  else max 0 (100 - (t - p.ideal_max) * 5)

/-- Wind sub-score of `calculate_suitability_score` (lines 342-346). -/
def wind_component (p : ActivityProfile) (w : ℚ) : ℚ :=
  if w ≤ p.max_wind then 100
  else max 0 (100 - (w - p.max_wind) * 3)

/-- Rain sub-score of `calculate_suitability_score` (lines 348-352). -/
def rain_component (p : ActivityProfile) (r : ℚ) : ℚ :=
  if r ≤ p.max_rain then 100
  else max 0 (100 - (r - p.max_rain) * 10)

/-- `WeatherPredictor.calculate_suitability_score` (lines 324-357). -/
def calculate_suitability_score (w : WeatherData) (p : ActivityProfile) : ℚ :=
  temp_component p w.temp * 0.5 + wind_component p w.wind_speed * 0.25 +
    rain_component p w.precipitation * 0.25

/-- `WeatherPredictor.get_suitability_rating` (lines 359-368):
(label, icon, color) triple. -/
def get_suitability_rating (score : ℚ) : String × String × String :=
  if 80 ≤ score then ("EXCELLENT", "✅", "#2E7D32")
  else if 60 ≤ score then ("GOOD", "👍", "#558B2F")
  else if 40 ≤ score then ("FAIR", "⚠️", "#F57C00")
  else ("POOR", "❌", "#D32F2F")

/-- `WeatherPredictor.activity_profiles` (lines 18-91). -/
def activity_profiles : List (String × ActivityProfile) :=
  [("🏖️ Beach Day", ⟨25, 35, 30, 2, "Beach Day"⟩),
   ("⛰️ Hiking/Trekking", ⟨15, 28, 40, 5, "Hiking"⟩),
   ("🎣 Fishing", ⟨10, 30, 35, 8, "Fishing"⟩),
   ("⛺ Camping", ⟨10, 28, 45, 3, "Camping"⟩),
   ("🎵 Outdoor Concert", ⟨18, 30, 25, 1, "Outdoor Concert"⟩),
   ("⚽ Sports/Exercise", ⟨15, 28, 35, 2, "Sports"⟩),
   ("🚴 Cycling", ⟨10, 30, 30, 3, "Cycling"⟩),
   ("🏃 Running", ⟨10, 25, 40, 5, "Running"⟩),
   ("🌅 Sightseeing", ⟨15, 32, 40, 5, "Sightseeing"⟩),
   ("📸 Photography", ⟨10, 35, 35, 10, "Photography"⟩),
   ("🎪 Outdoor Event", ⟨18, 30, 30, 2, "Outdoor Event"⟩),
   ("✈️ Vacation", ⟨20, 32, 35, 5, "Vacation"⟩)]

/-- `WeatherPredictor.calculate_heat_index` (lines 299-310), translated
statement by statement: note that `hi -= a - b` subtracts `a` and adds `b`,
and `hi -= c + d` subtracts both. -/
def calculate_heat_index (temp_c humidity : ℚ) : ℚ :=
  if temp_c < 27 then temp_c
  else
    let temp_f := temp_c * 9 / 5 + 32
    let hi1 := -42.379 + 2.04901523 * temp_f + 10.14333127 * humidity
    let hi2 := hi1 - (0.22475541 * temp_f * humidity - 0.00683783 * temp_f * temp_f)
    let hi3 := hi2 - (0.05481717 * humidity * humidity + 0.00122874 * temp_f * temp_f * humidity)
    let hi4 := hi3 + (0.00085282 * temp_f * humidity * humidity -
      0.00000199 * temp_f * temp_f * humidity * humidity)
    (hi4 - 32) * 5 / 9

/-- Modelled from the spec: the standard Rothfusz heat-index regression the
spec states (`HI_F = -42.379 + 2.04901523T + 10.14333127H - 0.22475541TH -
0.00683783T² - 0.05481717H² + 0.00122874T²H + 0.00085282TH² -
0.00000199T²H²`), with the same below-27°C pass-through, for comparison with
`calculate_heat_index`. -/
def rothfusz_heat_index (temp_c humidity : ℚ) : ℚ :=
  if temp_c < 27 then temp_c
  else
    let T := temp_c * 9 / 5 + 32
    let hi := -42.379 + 2.04901523 * T + 10.14333127 * humidity -
      0.22475541 * T * humidity - 0.00683783 * T * T -
      0.05481717 * humidity * humidity + 0.00122874 * T * T * humidity +
      0.00085282 * T * humidity * humidity -
      0.00000199 * T * T * humidity * humidity
    (hi - 32) * 5 / 9

theorem temp_component_nonneg (p : ActivityProfile) (t : ℚ) :
    0 ≤ temp_component p t := by
  unfold temp_component
  split_ifs
  · norm_num
  · exact le_max_left 0 _
  · exact le_max_left 0 _

theorem temp_component_le (p : ActivityProfile) (t : ℚ) :
    temp_component p t ≤ 100 := by
  unfold temp_component
  split_ifs with h1 h2
  · exact le_refl _
  · exact max_le (by norm_num) (by linarith)
  · push_neg at h1 h2
    have := h1 h2
    exact max_le (by norm_num) (by linarith)

theorem wind_component_nonneg (p : ActivityProfile) (w : ℚ) :
    0 ≤ wind_component p w := by
  unfold wind_component
  split_ifs
  · norm_num
  · exact le_max_left 0 _

theorem wind_component_le (p : ActivityProfile) (w : ℚ) :
    wind_component p w ≤ 100 := by
  unfold wind_component
  split_ifs with h
  · exact le_refl _
  · push_neg at h
    exact max_le (by norm_num) (by linarith)

theorem rain_component_nonneg (p : ActivityProfile) (r : ℚ) :
    0 ≤ rain_component p r := by
  unfold rain_component
  split_ifs
  · norm_num
  · exact le_max_left 0 _

theorem rain_component_le (p : ActivityProfile) (r : ℚ) :
    rain_component p r ≤ 100 := by
  unfold rain_component
  split_ifs with h
  · exact le_refl _
  · push_neg at h
    exact max_le (by norm_num) (by linarith)

/-- C1: for every daily aggregate and profile the suitability score lies in
[0,100], and it is exactly 100 whenever the mean temperature is within
`[ideal_min, ideal_max]`, the mean wind is at most `max_wind` and the total
precipitation is at most `max_rain`. -/
theorem suitability_score_bounds (w : WeatherData) (p : ActivityProfile) :
    0 ≤ calculate_suitability_score w p ∧ calculate_suitability_score w p ≤ 100 ∧
      (p.ideal_min ≤ w.temp → w.temp ≤ p.ideal_max → w.wind_speed ≤ p.max_wind →
        w.precipitation ≤ p.max_rain → calculate_suitability_score w p = 100) := by
  refine ⟨?_, ?_, ?_⟩
  · have h1 := temp_component_nonneg p w.temp
    have h2 := wind_component_nonneg p w.wind_speed
    have h3 := rain_component_nonneg p w.precipitation
    unfold calculate_suitability_score
    linarith
  · have h1 := temp_component_le p w.temp
    have h2 := wind_component_le p w.wind_speed
    have h3 := rain_component_le p w.precipitation
    unfold calculate_suitability_score
    linarith
  · intro ht1 ht2 hw hr
    unfold calculate_suitability_score temp_component wind_component rain_component
    rw [if_pos ⟨ht1, ht2⟩, if_pos hw, if_pos hr]
    norm_num

theorem temp_component_anti_below (p : ActivityProfile)
    (hband : p.ideal_min ≤ p.ideal_max) (t1 t2 : ℚ) (h21 : t2 ≤ t1)
    (h1 : t1 ≤ p.ideal_min) : temp_component p t2 ≤ temp_component p t1 := by
  by_cases hb1 : p.ideal_min ≤ t1 ∧ t1 ≤ p.ideal_max
  · have : temp_component p t1 = 100 := by
      unfold temp_component
      rw [if_pos hb1]
    rw [this]
    exact temp_component_le p t2
  · have hlt1 : t1 < p.ideal_min := by
      rcases not_and_or.mp hb1 with h | h
      · exact lt_of_not_le h
      · exact absurd (le_trans h1 hband) h
    have hlt2 : t2 < p.ideal_min := lt_of_le_of_lt h21 hlt1
    have e1 : temp_component p t1 = max 0 (100 - (p.ideal_min - t1) * 5) := by
      unfold temp_component
      rw [if_neg hb1, if_pos hlt1]
    have e2 : temp_component p t2 = max 0 (100 - (p.ideal_min - t2) * 5) := by
      unfold temp_component
      rw [if_neg (by push_neg; intro h; linarith), if_pos hlt2]
    rw [e1, e2]
    exact max_le_max le_rfl (by linarith)

theorem temp_component_anti_above (p : ActivityProfile)
    (hband : p.ideal_min ≤ p.ideal_max) (t1 t2 : ℚ) (h1 : p.ideal_max ≤ t1)
    (h12 : t1 ≤ t2) : temp_component p t2 ≤ temp_component p t1 := by
  by_cases hb1 : p.ideal_min ≤ t1 ∧ t1 ≤ p.ideal_max
  · have : temp_component p t1 = 100 := by
      unfold temp_component
      rw [if_pos hb1]
    rw [this]
    exact temp_component_le p t2
  · have hgt1 : p.ideal_max < t1 := by
      rcases not_and_or.mp hb1 with h | h
      · exact absurd (le_trans hband h1) h
      · exact lt_of_not_le h
    have hgt2 : p.ideal_max < t2 := lt_of_lt_of_le hgt1 h12
    have e1 : temp_component p t1 = max 0 (100 - (t1 - p.ideal_max) * 5) := by
      unfold temp_component
      rw [if_neg hb1, if_neg (by push_neg; linarith)]
    have e2 : temp_component p t2 = max 0 (100 - (t2 - p.ideal_max) * 5) := by
      unfold temp_component
      rw [if_neg (by push_neg; intro h; linarith), if_neg (by push_neg; linarith)]
    rw [e1, e2]
    exact max_le_max le_rfl (by linarith)

theorem wind_component_anti (p : ActivityProfile) (v1 v2 : ℚ) (h : v1 ≤ v2) :
    wind_component p v2 ≤ wind_component p v1 := by
  unfold wind_component
  split_ifs with h2 h1 h1
  · exact le_refl _
  · exact absurd (le_trans h h2) h1
  · push_neg at h2
    exact max_le (by norm_num) (by linarith)
  · exact max_le_max le_rfl (by linarith)

theorem rain_component_anti (p : ActivityProfile) (r1 r2 : ℚ) (h : r1 ≤ r2) :
    rain_component p r2 ≤ rain_component p r1 := by
  unfold rain_component
  split_ifs with h2 h1 h1
  · exact le_refl _
  · exact absurd (le_trans h h2) h1
  · push_neg at h2
    exact max_le (by norm_num) (by linarith)
  · exact max_le_max le_rfl (by linarith)

/-- C2: with a well-formed band (`ideal_min ≤ ideal_max`), the score is
monotonically non-increasing as the distance of one input outside its bound
grows, holding the other two inputs fixed (below-band temperature, above-band
temperature, wind at or above `max_wind`, rain at or above `max_rain`), and
the score is never below 0 for any input. -/
theorem suitability_score_monotone (w : WeatherData) (p : ActivityProfile)
    (hband : p.ideal_min ≤ p.ideal_max) :
    (∀ t1 t2 : ℚ, t2 ≤ t1 → t1 ≤ p.ideal_min →
      calculate_suitability_score { w with temp := t2 } p ≤
        calculate_suitability_score { w with temp := t1 } p) ∧
    (∀ t1 t2 : ℚ, p.ideal_max ≤ t1 → t1 ≤ t2 →
      calculate_suitability_score { w with temp := t2 } p ≤
        calculate_suitability_score { w with temp := t1 } p) ∧
    (∀ v1 v2 : ℚ, p.max_wind ≤ v1 → v1 ≤ v2 →
      calculate_suitability_score { w with wind_speed := v2 } p ≤
        calculate_suitability_score { w with wind_speed := v1 } p) ∧
    (∀ r1 r2 : ℚ, p.max_rain ≤ r1 → r1 ≤ r2 →
      calculate_suitability_score { w with precipitation := r2 } p ≤
        calculate_suitability_score { w with precipitation := r1 } p) ∧
    0 ≤ calculate_suitability_score w p := by
  refine ⟨?_, ?_, ?_, ?_, (suitability_score_bounds w p).1⟩
  · intro t1 t2 h21 h1
    have := temp_component_anti_below p hband t1 t2 h21 h1
    unfold calculate_suitability_score
    simp only
    linarith
  · intro t1 t2 h1 h12
    have := temp_component_anti_above p hband t1 t2 h1 h12
    unfold calculate_suitability_score
    simp only
    linarith
  · intro v1 v2 _ h12
    have := wind_component_anti p v1 v2 h12
    unfold calculate_suitability_score
    simp only
    linarith
  · intro r1 r2 _ h12
    have := rain_component_anti p r1 r2 h12
    unfold calculate_suitability_score
    simp only
    linarith

/-- The Beach Day profile, as listed in `activity_profiles`. -/
def beach_profile : ActivityProfile := ⟨25, 35, 30, 2, "Beach Day"⟩

/-- A sample daily aggregate used to instantiate the monotonicity theorem. -/
def sample_day : WeatherData :=
  { temp := 30, temp_max := 33, temp_min := 24, wind_speed := 10,
    wind_max := 15, humidity := 50, precipitation := 0 }

/-- Witness for C2: the monotonicity theorem instantiated at the Beach Day
profile with concrete wind speeds 31 ≤ 40 and concrete below-band
temperatures. -/
theorem suitability_score_monotone_witness :
    calculate_suitability_score { sample_day with wind_speed := 40 } beach_profile ≤
      calculate_suitability_score { sample_day with wind_speed := 31 } beach_profile ∧
    calculate_suitability_score { sample_day with temp := 10 } beach_profile ≤
      calculate_suitability_score { sample_day with temp := 20 } beach_profile ∧
    0 ≤ calculate_suitability_score sample_day beach_profile :=
  ⟨(suitability_score_monotone sample_day beach_profile (by norm_num [beach_profile])).2.2.1
      31 40 (by norm_num [beach_profile]) (by norm_num),
   (suitability_score_monotone sample_day beach_profile (by norm_num [beach_profile])).1
      20 10 (by norm_num) (by norm_num [beach_profile]),
   (suitability_score_monotone sample_day beach_profile (by norm_num [beach_profile])).2.2.2.2⟩

/-- C3: looking up the Beach Day preset yields the profile with band (25,35),
max wind 30 and max rain 2; on a day with mean temperature 40, mean wind 10
and 0 precipitation, the temperature component is 75 and the combined score
is `0.5*75 + 0.25*100 + 0.25*100 = 87.5`. -/
theorem beach_hot_day_score :
    activity_profiles.lookup ("🏖️ Beach Day") = some beach_profile ∧
    temp_component beach_profile 40 = 75 ∧
    calculate_suitability_score
      { temp := 40, temp_max := 42, temp_min := 38, wind_speed := 10,
        wind_max := 12, humidity := 40, precipitation := 0 } beach_profile = 87.5 := by
  refine ⟨by decide, ?_, ?_⟩
  · unfold temp_component beach_profile
    norm_num
  · unfold calculate_suitability_score temp_component wind_component
      rain_component beach_profile
    norm_num

/-- C4: the rating lookup is an exhaustive step function of the score with
thresholds 80/60/40, each band carrying its fixed label/icon/color triple. -/
theorem rating_step_function (s : ℚ) :
    (80 ≤ s → get_suitability_rating s = ("EXCELLENT", "✅", "#2E7D32")) ∧
    (60 ≤ s ∧ s < 80 → get_suitability_rating s = ("GOOD", "👍", "#558B2F")) ∧
    (40 ≤ s ∧ s < 60 → get_suitability_rating s = ("FAIR", "⚠️", "#F57C00")) ∧
    (s < 40 → get_suitability_rating s = ("POOR", "❌", "#D32F2F")) := by
  unfold get_suitability_rating
  refine ⟨fun h => ?_, fun h => ?_, fun h => ?_, fun h => ?_⟩
  · rw [if_pos h]
  · rw [if_neg (by linarith [h.2]), if_pos h.1]
  · rw [if_neg (by linarith [h.2]), if_neg (by linarith [h.2]), if_pos h.1]
  · rw [if_neg (by linarith), if_neg (by linarith), if_neg (by linarith)]

/-- Counterexample to C5 as stated: a score of exactly 80 maps to the label
"EXCELLENT", not "GOOD", and a score of exactly 60 maps to "GOOD", not
"FAIR". -/
theorem rating_boundary_counterexample :
    (get_suitability_rating 80).1 ≠ "GOOD" ∧
      (get_suitability_rating 60).1 ≠ "FAIR" := by
  constructor <;> decide

/-- C5 amended: at the exact band boundaries the lookup maps 80 to
"EXCELLENT", 60 to "GOOD", 40 to "FAIR", and any score below 40 to "POOR". -/
theorem rating_boundary_values :
    (get_suitability_rating 80).1 = "EXCELLENT" ∧
    (get_suitability_rating 60).1 = "GOOD" ∧
    (get_suitability_rating 40).1 = "FAIR" ∧
    (∀ s : ℚ, s < 40 → (get_suitability_rating s).1 = "POOR") := by
  refine ⟨by decide, by decide, by decide, fun s h => ?_⟩
  unfold get_suitability_rating
  rw [if_neg (by linarith), if_neg (by linarith), if_neg (by linarith)]

/-- C6: evaluation of the code's heat index.  Below 27 °C the input is
returned unchanged, as the claim says; but at 30 °C and 70 % humidity the
code computes ≈ −615.6 °C while the Rothfusz regression stated by the claim
gives ≈ +35.0 °C: the chained `hi -=` statements flip the signs of the
`T²` and `T²H` terms relative to the regression. -/
theorem heat_index_formula_divergence :
    calculate_heat_index 20 50 = 20 ∧
    calculate_heat_index 30 70 = -6925455829 / 11250000 ∧
    rothfusz_heat_index 30 70 = 157671079 / 4500000 ∧
    calculate_heat_index 30 70 ≠ rothfusz_heat_index 30 70 ∧
    calculate_heat_index 30 70 < -600 := by
  have hc : calculate_heat_index 30 70 = -6925455829 / 11250000 := by
    norm_num [calculate_heat_index]
  have hr : rothfusz_heat_index 30 70 = 157671079 / 4500000 := by
    norm_num [rothfusz_heat_index]
  have h20 : calculate_heat_index 20 50 = 20 := by
    norm_num [calculate_heat_index]
  refine ⟨h20, hc, hr, ?_, ?_⟩
  · rw [hc, hr]
    norm_num
  · rw [hc]
    norm_num

/-- The kinds of per-day concern the report can flag (lines 532-543 of
`predict`). -/
inductive Concern
  | tooHot
  | tooCold
  | highWind
  | heavyRain
  deriving DecidableEq

/-- The per-day concerns block of `predict` (lines 532-543), translated with
its control flow: the too-cold test is an `elif` of the too-hot test, while
the wind and rain tests are independent `if`s. -/
def day_concerns (w : WeatherData) (p : ActivityProfile) : List Concern :=
  (if p.ideal_max < w.temp_max then [Concern.tooHot]
   else if w.temp_min < p.ideal_min then [Concern.tooCold]
   else []) ++
  (if p.max_wind < w.wind_max then [Concern.highWind] else []) ++
  (if p.max_rain < w.precipitation then [Concern.heavyRain] else [])

/-- A day that is simultaneously too hot (by its maximum) and too cold (by
its minimum) for the profile below. -/
def extreme_day : WeatherData :=
  { temp := 5, temp_max := 20, temp_min := -5, wind_speed := 0,
    wind_max := 0, humidity := 50, precipitation := 0 }

/-- A profile with ideal band (0,10), max wind 10, max rain 10. -/
def narrow_profile : ActivityProfile := ⟨0, 10, 10, 10, "Narrow"⟩

/-- Counterexample to C7 as stated: on a day whose minimum temperature is
below the ideal lower bound, the too-cold concern is nevertheless absent,
because the day's maximum also exceeds the upper bound and the too-cold test
is an `elif` of the too-hot test. -/
theorem concerns_counterexample :
    extreme_day.temp_min < narrow_profile.ideal_min ∧
      narrow_profile.ideal_max < extreme_day.temp_max ∧
      Concern.tooHot ∈ day_concerns extreme_day narrow_profile ∧
      Concern.tooCold ∉ day_concerns extreme_day narrow_profile := by
  refine ⟨by decide, by decide, by decide, by decide⟩

/-- C7 amended: the concerns list flags too-hot iff the day's maximum
temperature exceeds the ideal upper bound; too-cold iff the day's minimum is
below the ideal lower bound *and* the maximum does not exceed the upper bound
(the too-hot branch takes precedence); high-wind iff the peak gust exceeds
`max_wind`; and heavy-rain iff the total precipitation exceeds `max_rain` —
the temperature and wind tests use the day's extremes, not the means used
for scoring. -/
theorem day_concerns_flags (w : WeatherData) (p : ActivityProfile) :
    (Concern.tooHot ∈ day_concerns w p ↔ p.ideal_max < w.temp_max) ∧
    (Concern.tooCold ∈ day_concerns w p ↔
      w.temp_min < p.ideal_min ∧ w.temp_max ≤ p.ideal_max) ∧
    (Concern.highWind ∈ day_concerns w p ↔ p.max_wind < w.wind_max) ∧
    (Concern.heavyRain ∈ day_concerns w p ↔ p.max_rain < w.precipitation) := by
  unfold day_concerns
  split_ifs with h1 h2 h3 h4 <;>
    simp_all [List.mem_append, not_lt, le_of_lt]

/-- One valid daily row of the fetched NASA historical series, after the
`-999` sentinel replacement and `dropna` filtering of
`fetch_nasa_historical_data` (lines 153-154). -/
structure Row where
  T2M : ℚ
  T2M_MAX : ℚ
  T2M_MIN : ℚ
  PRECTOTCORR : ℚ
  WS10M : ℚ
  WS10M_MAX : ℚ
  RH2M : ℚ
  deriving DecidableEq

/-- The five adverse-condition categories (`model_types`, line 103). -/
inductive Cat
  | hot
  | cold
  | windy
  | wet
  | uncomfortable
  deriving DecidableEq

/-- The category list in the order the code iterates it (lines 103, 225). -/
def allCats : List Cat :=
  [Cat.hot, Cat.cold, Cat.windy, Cat.wet, Cat.uncomfortable]

def catName : Cat → String
  | Cat.hot => "hot"
  | Cat.cold => "cold"
  | Cat.windy => "windy"
  | Cat.wet => "wet"
  | Cat.uncomfortable => "uncomfortable"

/-- Path of a category's cached model file (lines 106, 258). -/
def modelPath (c : Cat) : String := "models/" ++ catName c ++ "_model.pkl"

/-- Path of a category's cached scaler file (lines 107, 259). -/
def scalerPath (c : Cat) : String := "models/" ++ catName c ++ "_scaler.pkl"

/-- The predictor's in-memory model state: `self.models`, `self.scalers`
(fitted models and scalers are abstracted to numeric handles) and
`self.model_trained`. -/
structure MState where
  models : Cat → Option ℕ
  scalers : Cat → Option ℕ
  model_trained : Bool

/-- `WeatherPredictor.load_or_train_models` (lines 98-120): `disk c` is
`some (m, s)` when both of category `c`'s cache files exist and load without
error (to model `m` and scaler `s`), `none` when either file is absent or a
load raises; in both failure cases the code stores `None` in the slots.
`model_trained` becomes true iff any model slot is non-`None` (line 120). -/
def load_or_train_models (disk : Cat → Option (ℕ × ℕ)) : MState :=
  { models := fun c => (disk c).map Prod.fst
    scalers := fun c => (disk c).map Prod.snd
    model_trained := allCats.any fun c => ((disk c).map Prod.fst).isSome }

/-- `positive_ratio = y.sum() / len(y)` (line 230) for a boolean label
column. -/
def positive_ratio (y : List Bool) : ℚ := (y.count true : ℚ) / (y.length : ℚ)

/-- One iteration of the training loop of
`train_models_with_historical_data` (lines 225-262): skip the category when
the positive-class ratio is below 1 % or above 99 %; otherwise fit, dump the
model and scaler files, and set the in-memory slots.  `fit c` abstracts the
sklearn `StandardScaler`/`RandomForestClassifier` fitting, which is external
library code. -/
def trainStep (fit : Cat → ℕ × ℕ) (y_dict : Cat → List Bool)
    (acc : MState × List String) (c : Cat) : MState × List String :=
  if positive_ratio (y_dict c) < 0.01 ∨ positive_ratio (y_dict c) > 0.99 then acc
  else
    ({ models := Function.update acc.1.models c (some (fit c).1)
       scalers := Function.update acc.1.scalers c (some (fit c).2)
       model_trained := acc.1.model_trained },
     acc.2 ++ [modelPath c, scalerPath c])

/-- The training loop over the five categories (lines 225-262); the second
component collects the cache files written by `joblib.dump`. -/
def trainLoop (fit : Cat → ℕ × ℕ) (y_dict : Cat → List Bool) (st : MState) :
    MState × List String :=
  allCats.foldl (trainStep fit y_dict) (st, [])

/-- `WeatherPredictor.train_models_with_historical_data` (lines 206-272).
`hist` is the fetched-and-filtered historical series (`none` when the fetch
failed); `prep` abstracts the label derivation of `prepare_training_data`
(whose features use floating-point trigonometry and powers); the guard
`len < 100` (line 211) returns `False` before any state change or file
write.  On success the function returns the recomputed `model_trained`
flag (lines 267-272), the updated state and the files written. -/
def train_models_with_historical_data (prep : List Row → Cat → List Bool)
    (fit : Cat → ℕ × ℕ) (hist : Option (List Row)) (st : MState) :
    Bool × MState × List String :=
  match hist with
  | none => (false, st, [])
  | some rows =>
    if rows.length < 100 then (false, st, [])
    else
      let res := trainLoop fit (prep rows) st
      let mt := allCats.any fun c => (res.1.models c).isSome
      (mt, { res.1 with model_trained := mt }, res.2)

/-- The training trigger inside `predict` (lines 440-442): train only when
`self.model_trained` is false. -/
def predict_training_phase (prep : List Row → Cat → List Bool)
    (fit : Cat → ℕ × ℕ) (hist : Option (List Row)) (st : MState) : MState :=
  if st.model_trained then st
  else (train_models_with_historical_data prep fit hist st).2.1

/-- C8: when the fetched historical series is missing or has fewer than 100
valid rows after filtering, the trainer returns `false`, leaves the model
and scaler state exactly as it was, and writes no cache file. -/
theorem insufficient_data_keeps_state (prep : List Row → Cat → List Bool)
    (fit : Cat → ℕ × ℕ) (st : MState) :
    train_models_with_historical_data prep fit none st = (false, st, []) ∧
    ∀ rows : List Row, rows.length < 100 →
      train_models_with_historical_data prep fit (some rows) st =
        (false, st, []) := by
  constructor
  · rfl
  · intro rows h
    simp [train_models_with_historical_data, h]

theorem trainStep_models_other (fit : Cat → ℕ × ℕ) (y : Cat → List Bool)
    (acc : MState × List String) (c c' : Cat) (h : c' ≠ c) :
    (trainStep fit y acc c).1.models c' = acc.1.models c' := by
  unfold trainStep
  split_ifs
  · rfl
  · exact Function.update_noteq h _ _

theorem foldl_trainStep_models_not_mem (fit : Cat → ℕ × ℕ)
    (y : Cat → List Bool) (l : List Cat) (acc : MState × List String)
    (c : Cat) (h : c ∉ l) :
    (l.foldl (trainStep fit y) acc).1.models c = acc.1.models c := by
  induction l generalizing acc with
  | nil => rfl
  | cons a t ih =>
    simp only [List.mem_cons, not_or] at h
    simp only [List.foldl_cons]
    rw [ih _ h.2]
    exact trainStep_models_other fit y acc a c h.1

theorem foldl_trainStep_models_mem (fit : Cat → ℕ × ℕ)
    (y : Cat → List Bool) (l : List Cat) (acc : MState × List String)
    (c : Cat) (hmem : c ∈ l) (hnd : l.Nodup) :
    (l.foldl (trainStep fit y) acc).1.models c =
      if positive_ratio (y c) < 0.01 ∨ positive_ratio (y c) > 0.99 then
        acc.1.models c
      else some (fit c).1 := by
  induction l generalizing acc with
  | nil => cases hmem
  | cons a t ih =>
    have hnd' := List.nodup_cons.mp hnd
    rcases List.mem_cons.mp hmem with rfl | hm
    · simp only [List.foldl_cons]
      rw [foldl_trainStep_models_not_mem fit y t _ c hnd'.1]
      unfold trainStep
      split_ifs with h
      · rfl
      · simp [Function.update_same]
    · have hca : c ≠ a := fun he => hnd'.1 (he ▸ hm)
      simp only [List.foldl_cons]
      rw [ih _ hm hnd'.2]
      rw [trainStep_models_other fit y acc a c hca]

/-- The model slot a full training loop leaves for category `c`: unchanged
when the class balance is outside [1 %, 99 %], the freshly fitted model
otherwise. -/
theorem trainLoop_models (fit : Cat → ℕ × ℕ) (y : Cat → List Bool)
    (st : MState) (c : Cat) :
    (trainLoop fit y st).1.models c =
      if positive_ratio (y c) < 0.01 ∨ positive_ratio (y c) > 0.99 then
        st.models c
      else some (fit c).1 := by
  unfold trainLoop
  exact foldl_trainStep_models_mem fit y allCats (st, []) c
    (by cases c <;> simp [allCats]) (by decide)

/-- C9 amended: a category whose cache pair loads is never retrained — but
only because loading any one category sets `model_trained` and then a
prediction triggers no training at all, for any category; retraining of a
missing category happens only when no category loaded, in which case a
prediction triggers training of every category whose positive-class ratio
lies within [1 %, 99 %]. -/
theorem model_cache_gating (disk : Cat → Option (ℕ × ℕ))
    (prep : List Row → Cat → List Bool) (fit : Cat → ℕ × ℕ)
    (hist : Option (List Row)) :
    ((∃ c, (disk c).isSome) →
      predict_training_phase prep fit hist (load_or_train_models disk) =
        load_or_train_models disk) ∧
    ((∀ c, disk c = none) → ∀ rows c, hist = some rows → 100 ≤ rows.length →
      ¬(positive_ratio (prep rows c) < 0.01 ∨
          positive_ratio (prep rows c) > 0.99) →
      (predict_training_phase prep fit hist
          (load_or_train_models disk)).models c = some (fit c).1) := by
  constructor
  · rintro ⟨c, hc⟩
    have ht : (load_or_train_models disk).model_trained = true := by
      simp only [load_or_train_models, List.any_eq_true]
      exact ⟨c, by cases c <;> simp [allCats], by simp [Option.isSome_map', hc]⟩
    unfold predict_training_phase
    rw [if_pos ht]
  · intro hnone rows c hh h100 hratio
    have ht : (load_or_train_models disk).model_trained = false := by
      simp [load_or_train_models, hnone]
    subst hh
    unfold predict_training_phase
    rw [if_neg (by simp [ht])]
    unfold train_models_with_historical_data
    simp only [not_lt.mpr h100, if_false]
    rw [trainLoop_models fit (prep rows) (load_or_train_models disk) c,
      if_neg hratio]

/-- A disk cache on which only the hot category's model/scaler pair exists
and loads. -/
def diskOneLoaded : Cat → Option (ℕ × ℕ)
  | Cat.hot => some (1, 1)
  | _ => none

/-- A label derivation giving every category a balanced 50 %/50 % label
column, so nothing about the data itself would prevent training. -/
def balanced_labels : List Row → Cat → List Bool :=
  fun _ _ => List.replicate 50 true ++ List.replicate 50 false

/-- One valid historical row. -/
def sample_row : Row := ⟨20, 25, 15, 0, 5, 10, 50⟩

/-- A fetched series of 100 valid rows. -/
def sample_hist : Option (List Row) := some (List.replicate 100 sample_row)

/-- Counterexample to C9 as stated: with only the hot category's cache pair
on disk, `load_or_train_models` sets `model_trained`, so a prediction
triggers no training at all and the cold category — whose cache pair is
absent, and whose labels are perfectly balanced over 100 valid rows — is
left untrained. -/
theorem cache_gating_counterexample :
    diskOneLoaded Cat.cold = none ∧
    (load_or_train_models diskOneLoaded).model_trained = true ∧
    (List.replicate 100 sample_row).length = 100 ∧
    positive_ratio (balanced_labels (List.replicate 100 sample_row) Cat.cold) =
      1 / 2 ∧
    predict_training_phase balanced_labels (fun _ => (7, 8)) sample_hist
        (load_or_train_models diskOneLoaded) =
      load_or_train_models diskOneLoaded ∧
    (predict_training_phase balanced_labels (fun _ => (7, 8)) sample_hist
        (load_or_train_models diskOneLoaded)).models Cat.cold = none := by
  have ht : (load_or_train_models diskOneLoaded).model_trained = true := by
    simp [load_or_train_models, allCats, diskOneLoaded]
  have hp : predict_training_phase balanced_labels (fun _ => (7, 8)) sample_hist
      (load_or_train_models diskOneLoaded) = load_or_train_models diskOneLoaded := by
    unfold predict_training_phase
    rw [if_pos ht]
  refine ⟨rfl, ht, by simp, ?_, hp, ?_⟩
  · unfold positive_ratio balanced_labels
    norm_num [List.count_replicate]
  · rw [hp]
    rfl

/-- The fallback profile of `predict` (lines 456-461). -/
def default_profile : ActivityProfile :=
  { ideal_min := 15, ideal_max := 30, max_wind := 35, max_rain := 5,
    name := "Outdoor Activity" }

/-- The prediction input record as far as profile resolution is concerned:
`event_type` is always present; `custom_params`, when present, carries a
full profile (lines 449-461). -/
structure PredictInput where
  event_type : String
  custom_params : Option ActivityProfile

/-- The profile-resolution branch of `predict` (lines 449-461): a present
`custom_params` key wins outright; otherwise the preset table is consulted
with `default_profile` as the `.get` fallback. -/
def resolve_profile (inp : PredictInput) : ActivityProfile :=
  match inp.custom_params with
  | some p => p
  | none => (activity_profiles.lookup inp.event_type).getD default_profile

/-- C10: a present `custom_params` is used as the profile and the
`event_type` preset is ignored; with no `custom_params` and an `event_type`
that is no preset name, the fixed default profile — band (15,30), max wind
35, max rain 5, name "Outdoor Activity" — is used. -/
theorem resolve_profile_spec (inp : PredictInput) (p : ActivityProfile) :
    (inp.custom_params = some p → resolve_profile inp = p) ∧
    (inp.custom_params = none →
      activity_profiles.lookup inp.event_type = none →
      resolve_profile inp =
        { ideal_min := 15, ideal_max := 30, max_wind := 35, max_rain := 5,
          name := "Outdoor Activity" }) := by
  constructor
  · intro h
    simp [resolve_profile, h]
  · intro h hl
    simp [resolve_profile, h, hl, default_profile]
